import Mathlib

/-
Verification of the go-mysql client connection layer
(vendor/github.com/go-mysql-org/go-mysql/client/conn.go).

The Go source is shallowly embedded: machine integers (uint8/uint16/uint32)
become `Nat` with explicit `% 2 ^ w` where truncation matters, Go errors
become `Option MErr`, and the collaborator packages (`mysql` constants,
`packet` transport, OK/resultset parsers) are represented by parameters or
by constants modelled from the specification, as noted on each definition.
-/

namespace Client

/-- Modelled from the spec (§6: protocol constants "must match the upstream
MySQL protocol's well-known numeric values bit-for-bit"): response-packet
header bytes from the `mysql` collaborator package, which is not part of
the analysed source file. -/
def OK_HEADER : Nat := 0x00

/-- Modelled from the spec (§6): the ERR packet header byte. -/
def ERR_HEADER : Nat := 0xff

/-- Modelled from the spec (§6): the local-infile request header byte. -/
def LocalInFile_HEADER : Nat := 0xfb

/-- Modelled from the spec (§6): server status flag bits of the `mysql`
collaborator package (upstream MySQL wire values). -/
def SERVER_STATUS_IN_TRANS : Nat := 0x0001

def SERVER_STATUS_AUTOCOMMIT : Nat := 0x0002

def SERVER_MORE_RESULTS_EXISTS : Nat := 0x0008

def SERVER_STATUS_NO_GOOD_INDEX_USED : Nat := 0x0010

def SERVER_STATUS_NO_INDEX_USED : Nat := 0x0020

def SERVER_STATUS_CURSOR_EXISTS : Nat := 0x0040

def SERVER_STATUS_LAST_ROW_SEND : Nat := 0x0080

def SERVER_STATUS_DB_DROPPED : Nat := 0x0100

def SERVER_STATUS_NO_BACKSLASH_ESCAPED : Nat := 0x0200

def SERVER_STATUS_METADATA_CHANGED : Nat := 0x0400

def SERVER_QUERY_WAS_SLOW : Nat := 0x0800

def SERVER_PS_OUT_PARAMS : Nat := 0x1000

/-- Modelled from the spec (§6): client capability flag bits of the `mysql`
collaborator package; consecutive bits 0..31 (upstream MySQL wire values). -/
def CLIENT_LONG_PASSWORD : Nat := 1 <<< 0

def CLIENT_FOUND_ROWS : Nat := 1 <<< 1

def CLIENT_LONG_FLAG : Nat := 1 <<< 2

def CLIENT_CONNECT_WITH_DB : Nat := 1 <<< 3

def CLIENT_NO_SCHEMA : Nat := 1 <<< 4

def CLIENT_COMPRESS : Nat := 1 <<< 5

def CLIENT_ODBC : Nat := 1 <<< 6

def CLIENT_LOCAL_FILES : Nat := 1 <<< 7

def CLIENT_IGNORE_SPACE : Nat := 1 <<< 8

def CLIENT_PROTOCOL_41 : Nat := 1 <<< 9

def CLIENT_INTERACTIVE : Nat := 1 <<< 10

def CLIENT_SSL : Nat := 1 <<< 11

def CLIENT_IGNORE_SIGPIPE : Nat := 1 <<< 12

def CLIENT_TRANSACTIONS : Nat := 1 <<< 13

def CLIENT_RESERVED : Nat := 1 <<< 14

def CLIENT_SECURE_CONNECTION : Nat := 1 <<< 15

def CLIENT_MULTI_STATEMENTS : Nat := 1 <<< 16

def CLIENT_MULTI_RESULTS : Nat := 1 <<< 17

def CLIENT_PS_MULTI_RESULTS : Nat := 1 <<< 18

def CLIENT_PLUGIN_AUTH : Nat := 1 <<< 19

def CLIENT_CONNECT_ATTRS : Nat := 1 <<< 20

def CLIENT_PLUGIN_AUTH_LENENC_CLIENT_DATA : Nat := 1 <<< 21

def CLIENT_CAN_HANDLE_EXPIRED_PASSWORDS : Nat := 1 <<< 22

def CLIENT_SESSION_TRACK : Nat := 1 <<< 23

def CLIENT_DEPRECATE_EOF : Nat := 1 <<< 24

def CLIENT_OPTIONAL_RESULTSET_METADATA : Nat := 1 <<< 25

def CLIENT_ZSTD_COMPRESSION_ALGORITHM : Nat := 1 <<< 26

def CLIENT_QUERY_ATTRIBUTES : Nat := 1 <<< 27

def MULTI_FACTOR_AUTHENTICATION : Nat := 1 <<< 28

def CLIENT_CAPABILITY_EXTENSION : Nat := 1 <<< 29

def CLIENT_SSL_VERIFY_SERVER_CERT : Nat := 1 <<< 30

def CLIENT_REMEMBER_OPTIONS : Nat := 1 <<< 31

/-- Modelled from the spec (§6): transport compression modes of the
`mysql` collaborator package (`MYSQL_COMPRESS_NONE/ZLIB/ZSTD`, iota). -/
def MYSQL_COMPRESS_NONE : Nat := 0

def MYSQL_COMPRESS_ZLIB : Nat := 1

def MYSQL_COMPRESS_ZSTD : Nat := 2

/-- Modelled from the spec (§4.2/§4.3): streaming markers of the `mysql`
collaborator package (`StreamingNone/StreamingSelect/StreamingMultiple`, iota). -/
def StreamingNone : Nat := 0

def StreamingSelect : Nat := 1

def StreamingMultiple : Nat := 2

/-- Go `error` values that the analysed code produces or passes through:
server-reported ERR packets (`handleErrorPacket`), the fixed
`ErrMalformPacket`, transport input/output failures, and the state error of
`SetCollation` built with `errors.Errorf`. -/
inductive MErr where
  | server (code : Nat)
  | malformPacket
  | io (code : Nat)
  | state (msg : String)
deriving DecidableEq

/-- Modelled from the spec (§3): a resultset outcome; only the fields the
claims mention are kept (field count, streaming marker, streaming-done). -/
structure Resultset where
  fieldCount : Nat
  streaming : Nat
  streamingDone : Bool
deriving DecidableEq

/-- Modelled from the spec (§3): a Result — status flags plus an optional
resultset (non-resultset outcomes carry `none`). -/
structure ResultM where
  status : Nat
  resultset : Option Resultset
deriving DecidableEq

/-- The `client.Conn` session state: the fields of the Go struct that the
claims are about. `capability` is the server-advertised bitmask recorded by
the handshake, `ccaps` the client-set capabilities only (both uint32);
`status` is uint16; `compression` is the embedded packet transport's
compression mode (set to `MYSQL_COMPRESS_NONE` on a fresh transport). -/
structure Conn where
  user : String
  password : String
  db : String
  proto : String
  serverVersion : String
  capability : Nat
  ccaps : Nat
  status : Nat
  charset : String
  collation : String
  connectionID : Nat
  compression : Nat
deriving DecidableEq

/-- Modelled from the spec (§3): "Negotiated capability = client-requested
AND server-advertised, computed once during handshake". -/
def negotiatedCapability (c : Conn) : Nat :=
  c.ccaps &&& c.capability

/-- `getNetProto` (conn.go:70-76): "tcp", or "unix" when the address
contains a path separator (Go: `strings.Contains(addr, "/")`). -/
def getNetProto (addr : String) : String :=
  if addr.contains '/' then "unix" else "tcp"

/-- The network selection of `ConnectWithDialer` (conn.go:111-113): an empty
network string is replaced by `getNetProto addr`, a non-empty one is kept. -/
def connectNetwork (network addr : String) : String :=
  if network = "" then getNetProto addr else network

/-- Go `time.Second` in nanoseconds (`time.Duration` is an int64 count of
nanoseconds). -/
def timeSecond : Nat := 1000000000

/-- The dialer timeout configured by `ConnectWithContext` (conn.go:90-93):
`dialer := &net.Dialer{Timeout: timeout}`. -/
def connectWithContextDialTimeout (timeout : Nat) : Nat :=
  timeout

/-- The dialer timeout produced by `ConnectWithTimeout` (conn.go:84-87): the
body forwards `time.Second*10` to `ConnectWithContext`, not its own
`timeout` argument. -/
def connectWithTimeoutDialTimeout (timeout : Nat) : Nat :=
  connectWithContextDialTimeout (10 * timeSecond)

/-- The compression step of `ConnectWithDialer` (conn.go:150-154), run after
a successful handshake: the codec is chosen from `c.ccaps` alone. -/
def connectSetCompression (c : Conn) : Conn :=
  if 0 < c.ccaps &&& CLIENT_COMPRESS then
    { c with compression := MYSQL_COMPRESS_ZLIB }
  else if 0 < c.ccaps &&& CLIENT_ZSTD_COMPRESSION_ALGORITHM then
    { c with compression := MYSQL_COMPRESS_ZSTD }
  else c

/-- `SetCollation` (conn.go:397-404): rejected with a state error once
`serverVersion` is non-empty (Go: `len(c.serverVersion) != 0`), otherwise
stores the collation name. Returns the updated state and the Go error. -/
def SetCollation (c : Conn) (collation : String) : Conn × Option MErr :=
  if c.serverVersion.length ≠ 0 then
    (c, some (MErr.state "cannot set collation after connection is established"))
  else
    ({ c with collation := collation }, none)

/-- `UseDB` (conn.go:247-262). The collaborator outcomes are parameters:
`writeErr` is the result of `writeCommandStr(COM_INIT_DB, dbName)` and
`readOK` the result of `readOK()` (on success carrying the status flags the
OK packet installs, per spec §3). Returns the updated state, the Go error,
and whether the init-db command write was attempted. -/
def UseDB (c : Conn) (dbName : String) (writeErr : Option MErr)
    (readOK : Except MErr Nat) : Conn × Option MErr × Bool :=
  if c.db = dbName then
    (c, none, false)
  else
    match writeErr with
    | some e => (c, some e, true)
    | none =>
        match readOK with
        | Except.error e => (c, some e, true)
        | Except.ok st => ({ c with db := dbName, status := st }, none, true)

/-- `Quit` (conn.go:201-206). `writeErr` is the outcome of
`writeCommand(COM_QUIT)` and `closeErr` the outcome `Close()` would report.
Returns the Go error of `Quit` and whether the transport was closed. -/
def Quit (writeErr : Option MErr) (closeErr : Option MErr) : Option MErr × Bool :=
  match writeErr with
  | some e => (some e, false)
  | none => (closeErr, true)

/-- One `(result, err)` pair as passed to the `ExecuteMultiple` per-result
callback (conn.go:332). -/
abbrev Call : Type := Option ResultM × Option MErr

/-- One iteration's input to the `ExecuteMultiple` read loop: either
`ReadPacketReuseMem` fails with a transport error, or it yields a packet,
represented by its header byte together with the collaborator outcomes the
loop body would obtain from it — `collab` is what `handleOKPacket` (header
`OK_HEADER`) or `readResultset` (default branch) returns for this packet,
and `srvErr` is the error `handleErrorPacket` parses out of an ERR packet
(after the `bytes.Repeat` copy out of the reused buffer). -/
inductive Response where
  | readFail (e : MErr)
  | pkt (header : Nat) (collab : Call) (srvErr : MErr)
deriving DecidableEq

/-- The `switch bs.B[0]` classification of one response packet
(conn.go:319-330): OK and resultset packets yield the collaborator's pair,
an ERR packet yields `(nil, handleErrorPacket(...))`, a local-infile request
yields `(nil, ErrMalformPacket)`. -/
def classifyPacket (header : Nat) (collab : Call) (srvErr : MErr) : Call :=
  if header = OK_HEADER then collab
  else if header = ERR_HEADER then (none, some srvErr)
  else if header = LocalInFile_HEADER then (none, some MErr.malformPacket)
  else collab

/-- The sentinel returned on loop exit (conn.go:344-347): an empty resultset
tagged `StreamingMultiple` with `StreamingDone = true`, wrapped in a fresh
`Result`. -/
def sentinelResult : ResultM :=
  { status := 0
    resultset := some { fieldCount := 0, streaming := StreamingMultiple, streamingDone := true } }

/-- The outcome of an `ExecuteMultiple` run: the returned
`(*Result, error)` pair, or the nil-pointer panic the Go loop would hit if a
collaborator produced `(nil, nil)` (the break test dereferences `result`). -/
inductive ExecRet where
  | ret (r : Option ResultM) (e : Option MErr)
  | panicked
deriving DecidableEq

/-- One step of the `ExecuteMultiple` loop body after classification
(conn.go:331-338): invoke the callback with `call`, then break when the
error is non-nil or the result's status lacks `SERVER_MORE_RESULTS_EXISTS`
(after the loop the sentinel is returned with a nil error), and otherwise
continue with the rest of the run `k`. -/
def loopStep (call : Call) (k : Option (List Call × ExecRet)) :
    Option (List Call × ExecRet) :=
  match call with
  | (r, some e) => some ([(r, some e)], ExecRet.ret (some sentinelResult) none)
  | (none, none) => some ([(none, none)], ExecRet.panicked)
  | (some r, none) =>
      if r.status &&& SERVER_MORE_RESULTS_EXISTS = 0 then
        some ([(some r, none)], ExecRet.ret (some sentinelResult) none)
      else
        match k with
        | none => none
        | some (calls, out) => some ((some r, none) :: calls, out)

/-- The `ExecuteMultiple` read loop (conn.go:313-348) over a list of server
responses, collecting the callback invocations in order. `none` means the
supplied response list ran out while the loop still wanted to read. A
failing `ReadPacketReuseMem` returns `(nil, err)` at once, without a
callback. -/
def runLoop : List Response → Option (List Call × ExecRet)
  | [] => none
  | Response.readFail e :: _ => some ([], ExecRet.ret none (some e))
  | Response.pkt hd cb se :: rest => loopStep (classifyPacket hd cb se) (runLoop rest)

/-- `ExecuteMultiple` (conn.go:302-348): a failing
`writeCommandStr(COM_QUERY, query)` returns `(nil, err)` before any read;
otherwise the read loop runs. -/
def ExecuteMultiple (writeErr : Option MErr) (resps : List Response) :
    Option (List Call × ExecRet) :=
  match writeErr with
  | some e => some ([], ExecRet.ret none (some e))
  | none => runLoop resps

/-- The loop-continuation test of conn.go:335 read positively: a callback
invocation after which the loop reads another response (nil error and a
result whose status has the more-results bit). -/
def continuesB (call : Call) : Bool :=
  call.2.isNone &&
    call.1.elim false fun r => !decide (r.status &&& SERVER_MORE_RESULTS_EXISTS = 0)

/-- The loop-break test of conn.go:335: a callback invocation whose error is
non-nil or whose result's status lacks the more-results bit. -/
def stopsB (call : Call) : Bool :=
  call.2.isSome ||
    call.1.elim false fun r => decide (r.status &&& SERVER_MORE_RESULTS_EXISTS = 0)

/-- `CapabilityString`'s branch table (conn.go:498-565): the name of one
capability bit value, unknown values rendered as `"(value)"` like Go's
`fmt.Sprintf("(%d)", field)`. -/
def capabilityName (field : Nat) : String :=
  if field = CLIENT_LONG_PASSWORD then "CLIENT_LONG_PASSWORD"
  else if field = CLIENT_FOUND_ROWS then "CLIENT_FOUND_ROWS"
  else if field = CLIENT_LONG_FLAG then "CLIENT_LONG_FLAG"
  else if field = CLIENT_CONNECT_WITH_DB then "CLIENT_CONNECT_WITH_DB"
  else if field = CLIENT_NO_SCHEMA then "CLIENT_NO_SCHEMA"
  else if field = CLIENT_COMPRESS then "CLIENT_COMPRESS"
  else if field = CLIENT_ODBC then "CLIENT_ODBC"
  else if field = CLIENT_LOCAL_FILES then "CLIENT_LOCAL_FILES"
  else if field = CLIENT_IGNORE_SPACE then "CLIENT_IGNORE_SPACE"
  else if field = CLIENT_PROTOCOL_41 then "CLIENT_PROTOCOL_41"
  else if field = CLIENT_INTERACTIVE then "CLIENT_INTERACTIVE"
  else if field = CLIENT_SSL then "CLIENT_SSL"
  else if field = CLIENT_IGNORE_SIGPIPE then "CLIENT_IGNORE_SIGPIPE"
  else if field = CLIENT_TRANSACTIONS then "CLIENT_TRANSACTIONS"
  else if field = CLIENT_RESERVED then "CLIENT_RESERVED"
  else if field = CLIENT_SECURE_CONNECTION then "CLIENT_SECURE_CONNECTION"
  else if field = CLIENT_MULTI_STATEMENTS then "CLIENT_MULTI_STATEMENTS"
  else if field = CLIENT_MULTI_RESULTS then "CLIENT_MULTI_RESULTS"
  else if field = CLIENT_PS_MULTI_RESULTS then "CLIENT_PS_MULTI_RESULTS"
  else if field = CLIENT_PLUGIN_AUTH then "CLIENT_PLUGIN_AUTH"
  else if field = CLIENT_CONNECT_ATTRS then "CLIENT_CONNECT_ATTRS"
  else if field = CLIENT_PLUGIN_AUTH_LENENC_CLIENT_DATA then "CLIENT_PLUGIN_AUTH_LENENC_CLIENT_DATA"
  else if field = CLIENT_CAN_HANDLE_EXPIRED_PASSWORDS then "CLIENT_CAN_HANDLE_EXPIRED_PASSWORDS"
  else if field = CLIENT_SESSION_TRACK then "CLIENT_SESSION_TRACK"
  else if field = CLIENT_DEPRECATE_EOF then "CLIENT_DEPRECATE_EOF"
  else if field = CLIENT_OPTIONAL_RESULTSET_METADATA then "CLIENT_OPTIONAL_RESULTSET_METADATA"
  else if field = CLIENT_ZSTD_COMPRESSION_ALGORITHM then "CLIENT_ZSTD_COMPRESSION_ALGORITHM"
  else if field = CLIENT_QUERY_ATTRIBUTES then "CLIENT_QUERY_ATTRIBUTES"
  else if field = MULTI_FACTOR_AUTHENTICATION then "MULTI_FACTOR_AUTHENTICATION"
  else if field = CLIENT_CAPABILITY_EXTENSION then "CLIENT_CAPABILITY_EXTENSION"
  else if field = CLIENT_SSL_VERIFY_SERVER_CERT then "CLIENT_SSL_VERIFY_SERVER_CERT"
  else if field = CLIENT_REMEMBER_OPTIONS then "CLIENT_REMEMBER_OPTIONS"
  else "(" ++ Nat.repr field ++ ")"

/-- `StatusString`'s branch table (conn.go:581-608). -/
def statusName (field : Nat) : String :=
  if field = SERVER_STATUS_IN_TRANS then "SERVER_STATUS_IN_TRANS"
  else if field = SERVER_STATUS_AUTOCOMMIT then "SERVER_STATUS_AUTOCOMMIT"
  else if field = SERVER_MORE_RESULTS_EXISTS then "SERVER_MORE_RESULTS_EXISTS"
  else if field = SERVER_STATUS_NO_GOOD_INDEX_USED then "SERVER_STATUS_NO_GOOD_INDEX_USED"
  else if field = SERVER_STATUS_NO_INDEX_USED then "SERVER_STATUS_NO_INDEX_USED"
  else if field = SERVER_STATUS_CURSOR_EXISTS then "SERVER_STATUS_CURSOR_EXISTS"
  else if field = SERVER_STATUS_LAST_ROW_SEND then "SERVER_STATUS_LAST_ROW_SEND"
  else if field = SERVER_STATUS_DB_DROPPED then "SERVER_STATUS_DB_DROPPED"
  else if field = SERVER_STATUS_NO_BACKSLASH_ESCAPED then "SERVER_STATUS_NO_BACKSLASH_ESCAPED"
  else if field = SERVER_STATUS_METADATA_CHANGED then "SERVER_STATUS_METADATA_CHANGED"
  else if field = SERVER_QUERY_WAS_SLOW then "SERVER_QUERY_WAS_SLOW"
  else if field = SERVER_PS_OUT_PARAMS then "SERVER_PS_OUT_PARAMS"
  else "(" ++ Nat.repr field ++ ")"

/-- The bit-scan loop shared by `CapabilityString` (conn.go:488-569) and
`StatusString` (conn.go:571-612): scan bit positions upward while the
remaining mask is non-zero, emitting the name of each set bit and clearing
it. `width` is the Go integer width (the source computes
`uint32(1 << i)` resp. `uint16(1 << i)`, hence the `% 2 ^ width`); `fuel`
bounds the recursion and is invisible for masks below `2 ^ width` when it
starts at `width`. -/
def renderFlagsAux (name : Nat → String) (width : Nat) :
    Nat → Nat → Nat → List String
  | 0, _, _ => []
  | fuel + 1, i, mask =>
      if mask = 0 then []
      else if mask &&& (2 ^ i % 2 ^ width) = 0 then
        renderFlagsAux name width fuel (i + 1) mask
      else
        name (2 ^ i % 2 ^ width) ::
          renderFlagsAux name width fuel (i + 1) (mask ^^^ (2 ^ i % 2 ^ width))

/-- `CapabilityString` (conn.go:488-569), as the list of names that the
source joins with `"|"`. -/
def CapabilityString (c : Conn) : List String :=
  renderFlagsAux capabilityName 32 32 0 c.capability

/-- `StatusString` (conn.go:571-612), as the list of names that the source
joins with `"|"`. -/
def StatusString (c : Conn) : List String :=
  renderFlagsAux statusName 16 16 0 c.status

/-- The canonical rendering the spec describes: the set bits of the mask in
ascending bit order, each mapped through the name table. -/
def canonicalFlags (name : Nat → String) (width mask : Nat) : List String :=
  ((List.range width).filter fun j => mask.testBit j).map fun j => name (2 ^ j)

/-- Modelled from the spec (§8 round-trip property): parse one rendered name
back "against the same bit table" — the first bit position of the table
whose rendered name matches, or, failing that, the numeric value inside a
parenthesized form. -/
def parseFlag (name : Nat → String) (width : Nat) (s : String) : Nat :=
  match (List.range width).find? fun j => name (2 ^ j) == s with
  | some j => 2 ^ j
  | none =>
      if s.startsWith "(" && s.endsWith ")" then
        ((s.drop 1).dropRight 1).toNat?.getD 0
      else 0

/-- Modelled from the spec (§8): re-parse a rendered name list by OR-ing the
bit value of each name. -/
def parseFlags (name : Nat → String) (width : Nat) (l : List String) : Nat :=
  l.foldr (fun s acc => parseFlag name width s ||| acc) 0

/-- A session carrying capability bits 0 and 9 and status bits 0, 2, 3 (the
values `0x201` and `13`). -/
def flagsConn : Conn :=
  { user := "", password := "", db := "", proto := "tcp",
    serverVersion := "8.0.32", capability := 0x201, ccaps := 0, status := 13,
    charset := "utf8mb4", collation := "", connectionID := 0,
    compression := MYSQL_COMPRESS_NONE }

/-- A freshly configured session before any handshake, as produced by the
option-application phase of `ConnectWithDialer`. -/
def freshConn : Conn :=
  { user := "root", password := "pw", db := "", proto := "tcp",
    serverVersion := "", capability := 0, ccaps := 0, status := 0,
    charset := "utf8mb4", collation := "", connectionID := 0,
    compression := MYSQL_COMPRESS_NONE }

/-- A session after a completed handshake (server version recorded). -/
def postHandshakeConn : Conn :=
  { freshConn with
    serverVersion := "8.0.32"
    db := "test"
    capability := CLIENT_PROTOCOL_41
    connectionID := 7
    collation := "utf8mb4_general_ci" }

/-- A session whose client requested zlib compression while the server
advertised only `CLIENT_PROTOCOL_41`. -/
def compressReqConn : Conn :=
  { freshConn with ccaps := CLIENT_COMPRESS, capability := CLIENT_PROTOCOL_41 }

/-- A session whose client requested zstd compression only. -/
def zstdReqConn : Conn :=
  { freshConn with
    ccaps := CLIENT_ZSTD_COMPRESSION_ALGORITHM
    capability := CLIENT_ZSTD_COMPRESSION_ALGORITHM }

/-- A non-resultset OK outcome with the given status flags. -/
def demoResult (st : Nat) : ResultM :=
  { status := st, resultset := none }

/-- Two OK responses: the first with the more-results bit, the second
without, ending a multi-statement session normally. -/
def demoMulti : List Response :=
  [Response.pkt OK_HEADER (some (demoResult SERVER_MORE_RESULTS_EXISTS), none) (MErr.server 0),
    Response.pkt OK_HEADER (some (demoResult 0), none) (MErr.server 0)]

/-- The callback invocations `demoMulti` produces. -/
def demoMultiCalls : List Call :=
  [(some (demoResult SERVER_MORE_RESULTS_EXISTS), none), (some (demoResult 0), none)]

/-- A single OK response without the more-results bit. -/
def demoStop : List Response :=
  [Response.pkt OK_HEADER (some (demoResult 0), none) (MErr.server 0)]

/-- A single ERR response. -/
def demoErrOnly : List Response :=
  [Response.pkt ERR_HEADER (none, none) (MErr.server 1064)]

/-- Go's `len(s) != 0` test agrees with comparing against the empty string. -/
theorem strLength_eq_zero_iff (s : String) : s.length = 0 ↔ s = "" := by
  constructor
  · intro h
    cases s with
    | mk l =>
        cases l with
        | nil => rfl
        | cons a t => simp [String.length] at h
  · intro h
    subst h
    rfl

/-- Claim C1, counterexample: with `ccaps = CLIENT_COMPRESS` and a server
that advertised only `CLIENT_PROTOCOL_41`, the compression capability is
absent from the negotiated bitmask (client-requested AND server-advertised),
yet `ConnectWithDialer` enables the zlib codec on the transport — so
compression can be enabled although the server did not advertise it. -/
theorem compression_without_negotiation_cex :
    negotiatedCapability compressReqConn &&& CLIENT_COMPRESS = 0 ∧
    (connectSetCompression compressReqConn).compression = MYSQL_COMPRESS_ZLIB ∧
    MYSQL_COMPRESS_ZLIB ≠ MYSQL_COMPRESS_NONE := by
  refine ⟨by decide, by decide, by decide⟩

/-- Claim C1, amended: after a successful connection setup the compression
codec is determined by the client-requested capability bitmask `ccaps`
alone, regardless of what the server advertised — zlib exactly when the
compression capability was requested, zstd exactly when zstd-compression
was requested and zlib-compression was not. -/
theorem connectSetCompression_spec (c : Conn)
    (h : c.compression = MYSQL_COMPRESS_NONE) :
    ((connectSetCompression c).compression = MYSQL_COMPRESS_ZLIB ↔
      c.ccaps &&& CLIENT_COMPRESS ≠ 0) ∧
    ((connectSetCompression c).compression = MYSQL_COMPRESS_ZSTD ↔
      c.ccaps &&& CLIENT_COMPRESS = 0 ∧
        c.ccaps &&& CLIENT_ZSTD_COMPRESSION_ALGORITHM ≠ 0) ∧
    ((connectSetCompression c).compression = MYSQL_COMPRESS_NONE ↔
      c.ccaps &&& CLIENT_COMPRESS = 0 ∧
        c.ccaps &&& CLIENT_ZSTD_COMPRESSION_ALGORITHM = 0) := by
  unfold connectSetCompression
  by_cases h1 : 0 < c.ccaps &&& CLIENT_COMPRESS
  · rw [if_pos h1]
    refine ⟨?_, ?_, ?_⟩ <;>
      simp [MYSQL_COMPRESS_ZLIB, MYSQL_COMPRESS_ZSTD, MYSQL_COMPRESS_NONE] <;>
      omega
  · rw [if_neg h1]
    by_cases h2 : 0 < c.ccaps &&& CLIENT_ZSTD_COMPRESSION_ALGORITHM
    · rw [if_pos h2]
      refine ⟨?_, ?_, ?_⟩ <;>
        simp [MYSQL_COMPRESS_ZLIB, MYSQL_COMPRESS_ZSTD, MYSQL_COMPRESS_NONE] <;>
        omega
    · rw [if_neg h2]
      rw [h]
      refine ⟨?_, ?_, ?_⟩ <;>
        simp [MYSQL_COMPRESS_ZLIB, MYSQL_COMPRESS_ZSTD, MYSQL_COMPRESS_NONE] <;>
        omega

/-- Claim C1 witness: the amended theorem applied to the zstd-only
configuration. -/
theorem connectSetCompression_spec_witness :
    zstdReqConn.compression = MYSQL_COMPRESS_NONE ∧
    (((connectSetCompression zstdReqConn).compression = MYSQL_COMPRESS_ZLIB ↔
        zstdReqConn.ccaps &&& CLIENT_COMPRESS ≠ 0) ∧
      ((connectSetCompression zstdReqConn).compression = MYSQL_COMPRESS_ZSTD ↔
        zstdReqConn.ccaps &&& CLIENT_COMPRESS = 0 ∧
          zstdReqConn.ccaps &&& CLIENT_ZSTD_COMPRESSION_ALGORITHM ≠ 0) ∧
      ((connectSetCompression zstdReqConn).compression = MYSQL_COMPRESS_NONE ↔
        zstdReqConn.ccaps &&& CLIENT_COMPRESS = 0 ∧
          zstdReqConn.ccaps &&& CLIENT_ZSTD_COMPRESSION_ALGORITHM = 0)) :=
  ⟨rfl, connectSetCompression_spec zstdReqConn rfl⟩

/-- Claim C3: once a server version has been recorded, `SetCollation`
errors for every name and leaves the session — in particular its stored
collation — unchanged; while the server version is still empty it succeeds
and stores the name. -/
theorem setCollation_spec (c : Conn) (name : String) :
    (c.serverVersion ≠ "" →
      (SetCollation c name).2.isSome = true ∧
      (SetCollation c name).1 = c ∧
      (SetCollation c name).1.collation = c.collation) ∧
    (c.serverVersion = "" →
      (SetCollation c name).2 = none ∧
      (SetCollation c name).1.collation = name) := by
  unfold SetCollation
  by_cases h : c.serverVersion = ""
  · simp [h]
  · have hl : c.serverVersion.length ≠ 0 := by
      intro hz
      exact h ((strLength_eq_zero_iff c.serverVersion).mp hz)
    simp [h, hl]

/-- Claim C3 witness: applied after the handshake (error, state kept) and
before it (success, collation stored). -/
theorem setCollation_spec_witness :
    (postHandshakeConn.serverVersion ≠ "" ∧
      ((SetCollation postHandshakeConn "latin1_swedish_ci").2.isSome = true ∧
        (SetCollation postHandshakeConn "latin1_swedish_ci").1 = postHandshakeConn ∧
        (SetCollation postHandshakeConn "latin1_swedish_ci").1.collation =
          postHandshakeConn.collation)) ∧
    (freshConn.serverVersion = "" ∧
      ((SetCollation freshConn "utf8mb4_0900_ai_ci").2 = none ∧
        (SetCollation freshConn "utf8mb4_0900_ai_ci").1.collation =
          "utf8mb4_0900_ai_ci")) :=
  ⟨⟨by decide, (setCollation_spec postHandshakeConn "latin1_swedish_ci").1 (by decide)⟩,
    ⟨rfl, (setCollation_spec freshConn "utf8mb4_0900_ai_ci").2 rfl⟩⟩

/-- Claim C4: `UseDB` is a no-op returning success when the requested name
is already selected; otherwise it attempts the init-db command write, and
the active database is set to the name exactly on a successful OK read —
the session is left unchanged when the write or the read fails. -/
theorem useDB_spec (c : Conn) (name : String) (we : Option MErr)
    (ro : Except MErr Nat) :
    (c.db = name → UseDB c name we ro = (c, none, false)) ∧
    (c.db ≠ name →
      (UseDB c name we ro).2.2 = true ∧
      (∀ st, we = none → ro = Except.ok st →
        (UseDB c name we ro).1.db = name ∧ (UseDB c name we ro).2.1 = none) ∧
      (∀ e, we = some e →
        (UseDB c name we ro).1 = c ∧ (UseDB c name we ro).2.1 = some e) ∧
      (∀ e, we = none → ro = Except.error e →
        (UseDB c name we ro).1 = c ∧ (UseDB c name we ro).2.1 = some e)) := by
  unfold UseDB
  by_cases h : c.db = name
  · simp [h]
  · cases we with
    | some e => simp [h]
    | none =>
        cases ro with
        | error e => simp [h]
        | ok st => simp [h]

/-- Claim C4 witness: the already-selected no-op, a successful switch, and
an unchanged session on a failing OK read. -/
theorem useDB_spec_witness :
    (postHandshakeConn.db = "test" ∧
      UseDB postHandshakeConn "test" none (Except.ok 0) =
        (postHandshakeConn, none, false)) ∧
    (postHandshakeConn.db ≠ "other" ∧
      (UseDB postHandshakeConn "other" none (Except.ok 2)).1.db = "other" ∧
      (UseDB postHandshakeConn "other" none (Except.ok 2)).2.1 = none) ∧
    (postHandshakeConn.db ≠ "other" ∧
      (UseDB postHandshakeConn "other" none
          (Except.error (MErr.server 1049))).1 = postHandshakeConn ∧
      (UseDB postHandshakeConn "other" none
          (Except.error (MErr.server 1049))).2.1 = some (MErr.server 1049)) :=
  ⟨⟨rfl, (useDB_spec postHandshakeConn "test" none (Except.ok 0)).1 rfl⟩,
    ⟨by decide,
      ((useDB_spec postHandshakeConn "other" none (Except.ok 2)).2
          (by decide)).2.1 2 rfl rfl⟩,
    ⟨by decide,
      ((useDB_spec postHandshakeConn "other" none
            (Except.error (MErr.server 1049))).2
          (by decide)).2.2.2 (MErr.server 1049) rfl rfl⟩⟩

/-- Claim C5: evaluation of the code at the failing input — a caller asking
`ConnectWithTimeout` for a one-second dial timeout gets a dialer configured
with the fixed ten-second constant instead, because the body forwards
`time.Second*10` rather than its `timeout` argument. -/
theorem connectWithTimeout_ignores_timeout :
    connectWithTimeoutDialTimeout timeSecond = 10 * timeSecond ∧
    connectWithTimeoutDialTimeout timeSecond ≠
      connectWithContextDialTimeout timeSecond := by
  refine ⟨by decide, by decide⟩

/-- Claim C7, counterexample: in the execution of `Quit` in which writing
the quit command fails, `Quit` returns the write error without closing the
transport — the transport is not closed in every execution. -/
theorem quit_write_fail_cex :
    (Quit (some (MErr.io 32)) none).1 = some (MErr.io 32) ∧
    (Quit (some (MErr.io 32)) none).2 = false :=
  ⟨rfl, rfl⟩

/-- Claim C7, amended: `Quit` sends the quit command without awaiting any
server response; when the write succeeds it closes the transport before
returning (propagating the close result), and when the write fails it
returns the write error with the transport left unclosed. -/
theorem quit_spec (closeErr : Option MErr) :
    Quit none closeErr = (closeErr, true) ∧
    ∀ e, Quit (some e) closeErr = (some e, false) :=
  ⟨rfl, fun _ => rfl⟩

/-- Claim C9: with no explicit network supplied, the transport protocol is
"unix" exactly when the address contains a path separator and "tcp"
otherwise; a non-empty explicit network string is used unchanged. -/
theorem connectNetwork_spec (network addr : String) :
    (network = "" →
      (connectNetwork network addr = "unix" ↔ addr.contains '/' = true) ∧
      (connectNetwork network addr = "tcp" ↔ addr.contains '/' = false)) ∧
    (network ≠ "" → connectNetwork network addr = network) := by
  by_cases hn : network = ""
  · cases h : addr.contains '/' with
    | true => simp [connectNetwork, getNetProto, hn, h]
    | false => simp [connectNetwork, getNetProto, hn, h]
  · simp [connectNetwork, hn]

/-- Inversion of one `ExecuteMultiple` loop iteration on a read failure:
the loop returns `(nil, err)` at once, with no callback invocation. -/
theorem runLoop_cons_readFail (e : MErr) (rest : List Response)
    (calls : List Call) (out : ExecRet)
    (h : runLoop (Response.readFail e :: rest) = some (calls, out)) :
    calls = [] ∧ out = ExecRet.ret none (some e) := by
  simp only [runLoop, Option.some.injEq, Prod.mk.injEq] at h
  exact ⟨h.1.symm, h.2.symm⟩

/-- Inversion of one `ExecuteMultiple` loop iteration on a successfully
read packet: either the classified call stops the loop (sentinel returned
with nil error), or it is the nil/nil pair on which the break test would
panic, or it continues and the rest of the run follows. -/
theorem runLoop_cons_pkt_inv (hd : Nat) (cb : Call) (se : MErr)
    (rest : List Response) (calls : List Call) (out : ExecRet)
    (h : runLoop (Response.pkt hd cb se :: rest) = some (calls, out)) :
    (calls = [classifyPacket hd cb se] ∧ stopsB (classifyPacket hd cb se) = true ∧
      out = ExecRet.ret (some sentinelResult) none) ∨
    (calls = [classifyPacket hd cb se] ∧ classifyPacket hd cb se = (none, none) ∧
      out = ExecRet.panicked) ∨
    (∃ calls', calls = classifyPacket hd cb se :: calls' ∧
      continuesB (classifyPacket hd cb se) = true ∧
      runLoop rest = some (calls', out)) := by
  rw [runLoop] at h
  rcases hcp : classifyPacket hd cb se with ⟨o1, o2⟩
  rw [hcp] at h
  cases o2 with
  | some e =>
      simp only [loopStep, Option.some.injEq, Prod.mk.injEq] at h
      left
      exact ⟨h.1.symm, by simp [stopsB], h.2.symm⟩
  | none =>
      cases o1 with
      | none =>
          simp only [loopStep, Option.some.injEq, Prod.mk.injEq] at h
          right; left
          exact ⟨h.1.symm, rfl, h.2.symm⟩
      | some r =>
          simp only [loopStep] at h
          by_cases hm : r.status &&& SERVER_MORE_RESULTS_EXISTS = 0
          · rw [if_pos hm] at h
            simp only [Option.some.injEq, Prod.mk.injEq] at h
            left
            exact ⟨h.1.symm, by simp [stopsB, hm], h.2.symm⟩
          · rw [if_neg hm] at h
            cases hrest : runLoop rest with
            | none =>
                rw [hrest] at h
                simp at h
            | some p =>
                obtain ⟨calls', out'⟩ := p
                rw [hrest] at h
                simp only [Option.some.injEq, Prod.mk.injEq] at h
                right; right
                exact ⟨calls', h.1.symm, by simp [continuesB, hm], by rw [h.2]⟩

/-- Each callback invocation of a terminating loop run corresponds, in
order, to one successfully read packet, and carries that packet's
classification. -/
theorem runLoop_get_calls (resps : List Response) :
    ∀ (calls : List Call) (out : ExecRet), runLoop resps = some (calls, out) →
      ∀ i, i < calls.length →
        ∃ hd cb se, resps.get? i = some (Response.pkt hd cb se) ∧
          calls.get? i = some (classifyPacket hd cb se) := by
  induction resps with
  | nil =>
      intro calls out h
      simp [runLoop] at h
  | cons resp rest ih =>
      intro calls out h i hi
      cases resp with
      | readFail e =>
          obtain ⟨rfl, rfl⟩ := runLoop_cons_readFail e rest calls out h
          simp at hi
      | pkt hd cb se =>
          rcases runLoop_cons_pkt_inv hd cb se rest calls out h with
            ⟨rfl, -, -⟩ | ⟨rfl, -, -⟩ | ⟨calls', rfl, -, hrest⟩
          · have hi0 : i = 0 := Nat.lt_one_iff.mp (by simpa using hi)
            subst hi0
            exact ⟨hd, cb, se, rfl, rfl⟩
          · have hi0 : i = 0 := Nat.lt_one_iff.mp (by simpa using hi)
            subst hi0
            exact ⟨hd, cb, se, rfl, rfl⟩
          · cases i with
            | zero => exact ⟨hd, cb, se, rfl, rfl⟩
            | succ j =>
                have hj : j < calls'.length := by simpa using hi
                obtain ⟨hd', cb', se', h1, h2⟩ := ih calls' out hrest j hj
                exact ⟨hd', cb', se', by simpa using h1, by simpa using h2⟩

/-- Every callback invocation before the final one passes the
continuation test: the loop read on exactly because the just-delivered
result had a nil error and the more-results bit. -/
theorem runLoop_continues_before_last (resps : List Response) :
    ∀ (calls : List Call) (out : ExecRet), runLoop resps = some (calls, out) →
      ∀ i c, i + 1 < calls.length → calls.get? i = some c →
        continuesB c = true := by
  induction resps with
  | nil =>
      intro calls out h
      simp [runLoop] at h
  | cons resp rest ih =>
      intro calls out h i c hi hc
      cases resp with
      | readFail e =>
          obtain ⟨rfl, rfl⟩ := runLoop_cons_readFail e rest calls out h
          simp at hi
      | pkt hd cb se =>
          rcases runLoop_cons_pkt_inv hd cb se rest calls out h with
            ⟨rfl, -, -⟩ | ⟨rfl, -, -⟩ | ⟨calls', rfl, hcont, hrest⟩
          · simp at hi
          · simp at hi
          · cases i with
            | zero =>
                simp only [List.get?_cons_zero, Option.some.injEq] at hc
                rw [← hc]
                exact hcont
            | succ j =>
                have hj : j + 1 < calls'.length := by simpa using hi
                exact ih calls' out hrest j c hj (by simpa using hc)

/-- A run that returns a non-nil error returned `(nil, err)` because the
read at position `calls.length` failed at the transport level; every
callback before it had passed the continuation test. -/
theorem runLoop_err_ret (resps : List Response) :
    ∀ (calls : List Call) (out : ExecRet) (r : Option ResultM) (e' : MErr),
      runLoop resps = some (calls, out) → out = ExecRet.ret r (some e') →
      r = none ∧ resps.get? calls.length = some (Response.readFail e') ∧
        ∀ c ∈ calls, continuesB c = true := by
  induction resps with
  | nil =>
      intro calls out r e' h
      simp [runLoop] at h
  | cons resp rest ih =>
      intro calls out r e' h hout
      cases resp with
      | readFail e =>
          obtain ⟨rfl, rfl⟩ := runLoop_cons_readFail e rest calls out h
          cases hout
          exact ⟨rfl, rfl, by simp⟩
      | pkt hd cb se =>
          rcases runLoop_cons_pkt_inv hd cb se rest calls out h with
            ⟨rfl, -, rfl⟩ | ⟨rfl, -, rfl⟩ | ⟨calls', rfl, hcont, hrest⟩
          · cases hout
          · cases hout
          · obtain ⟨hr, hget, hall⟩ := ih calls' out r e' hrest hout
            refine ⟨hr, by simpa using hget, ?_⟩
            intro c hc
            rcases List.mem_cons.mp hc with rfl | hc'
            · exact hcont
            · exact hall c hc'

/-- A run that returns a nil error returned the sentinel, and its callback
sequence is non-empty and ends in an invocation passing the break test. -/
theorem runLoop_ret_nil_err (resps : List Response) :
    ∀ (calls : List Call) (out : ExecRet) (r : Option ResultM),
      runLoop resps = some (calls, out) → out = ExecRet.ret r none →
      r = some sentinelResult ∧
        ∃ pre c, calls = pre ++ [c] ∧ stopsB c = true := by
  induction resps with
  | nil =>
      intro calls out r h
      simp [runLoop] at h
  | cons resp rest ih =>
      intro calls out r h hout
      cases resp with
      | readFail e =>
          obtain ⟨rfl, rfl⟩ := runLoop_cons_readFail e rest calls out h
          cases hout
      | pkt hd cb se =>
          rcases runLoop_cons_pkt_inv hd cb se rest calls out h with
            ⟨rfl, hstop, rfl⟩ | ⟨rfl, -, rfl⟩ | ⟨calls', rfl, -, hrest⟩
          · cases hout
            exact ⟨rfl, [], classifyPacket hd cb se, rfl, hstop⟩
          · cases hout
          · obtain ⟨hr, pre, c, hcalls, hstop⟩ := ih calls' out r hrest hout
            exact ⟨hr, classifyPacket hd cb se :: pre, c, by rw [hcalls]; rfl, hstop⟩

/-- A run whose last callback received a nil error and a result without the
more-results bit broke out of the loop there and returned the sentinel with
a nil error. -/
theorem runLoop_last_normal (resps : List Response) :
    ∀ (calls : List Call) (out : ExecRet) (pre : List Call) (res : ResultM),
      runLoop resps = some (calls, out) → calls = pre ++ [(some res, none)] →
      res.status &&& SERVER_MORE_RESULTS_EXISTS = 0 →
      out = ExecRet.ret (some sentinelResult) none := by
  induction resps with
  | nil =>
      intro calls out pre res h
      simp [runLoop] at h
  | cons resp rest ih =>
      intro calls out pre res h hcalls hm
      cases resp with
      | readFail e =>
          obtain ⟨rfl, rfl⟩ := runLoop_cons_readFail e rest calls out h
          exact absurd hcalls.symm (by simp)
      | pkt hd cb se =>
          rcases runLoop_cons_pkt_inv hd cb se rest calls out h with
            ⟨rfl, -, rfl⟩ | ⟨rfl, hnil, rfl⟩ | ⟨calls', rfl, hcont, hrest⟩
          · rfl
          · cases pre with
            | nil =>
                simp only [List.nil_append, List.cons.injEq] at hcalls
                rw [hnil] at hcalls
                simp at hcalls
            | cons p ps =>
                simp only [List.cons_append, List.cons.injEq] at hcalls
                exact absurd hcalls.2.symm (by simp)
          · cases pre with
            | nil =>
                simp only [List.nil_append, List.cons.injEq] at hcalls
                obtain ⟨hx, hnil'⟩ := hcalls
                rw [hx] at hcont
                simp [continuesB, hm] at hcont
            | cons p ps =>
                simp only [List.cons_append, List.cons.injEq] at hcalls
                exact ih calls' out ps res hrest hcalls.2 hm

/-- Claim C2: on every terminating `ExecuteMultiple` read-loop run, the
callback is invoked exactly once per successfully read response packet,
in order and with that packet's classification; every invocation before
the last one passed the continuation test (nil error and more-results bit
set); a run returning a nil error ended with an invocation passing the
break test; and after an invocation passing the continuation test the loop
read on — so a returned transport error means even the last invocation had
continued. -/
theorem executeMultiple_callback_spec (resps : List Response)
    (calls : List Call) (out : ExecRet)
    (h : ExecuteMultiple none resps = some (calls, out)) :
    (∀ i, i < calls.length →
      ∃ hd cb se, resps.get? i = some (Response.pkt hd cb se) ∧
        calls.get? i = some (classifyPacket hd cb se)) ∧
    (∀ i c, i + 1 < calls.length → calls.get? i = some c →
      continuesB c = true) ∧
    (∀ r, out = ExecRet.ret r none →
      ∃ pre c, calls = pre ++ [c] ∧ stopsB c = true) ∧
    (∀ r e', out = ExecRet.ret r (some e') → ∀ c ∈ calls, continuesB c = true) := by
  have hrun : runLoop resps = some (calls, out) := h
  refine ⟨runLoop_get_calls resps calls out hrun,
    runLoop_continues_before_last resps calls out hrun,
    fun r hout => (runLoop_ret_nil_err resps calls out r hrun hout).2,
    fun r e' hout => (runLoop_err_ret resps calls out r e' hrun hout).2.2⟩

/-- Claim C2 witness: the two-result run, its calls aligned with its
packets, and its final call passing the break test. -/
theorem executeMultiple_callback_spec_witness :
    ExecuteMultiple none demoMulti =
      some (demoMultiCalls, ExecRet.ret (some sentinelResult) none) ∧
    (∃ hd cb se, demoMulti.get? 1 = some (Response.pkt hd cb se) ∧
      demoMultiCalls.get? 1 = some (classifyPacket hd cb se)) ∧
    continuesB (demoMultiCalls.get ⟨0, by decide⟩) = true ∧
    (∃ pre c, demoMultiCalls = pre ++ [c] ∧ stopsB c = true) := by
  have h := executeMultiple_callback_spec demoMulti demoMultiCalls
    (ExecRet.ret (some sentinelResult) none) rfl
  refine ⟨rfl, h.1 1 (by decide), ?_, h.2.2.1 (some sentinelResult) rfl⟩
  exact h.2.1 0 (demoMultiCalls.get ⟨0, by decide⟩) (by decide) (by decide)

/-- Claim C8: when the read loop completes normally — its last callback
received a nil error and a result whose status lacks the more-results
bit — `ExecuteMultiple` returns a nil error and a non-nil empty `Result`
whose resultset is marked `StreamingMultiple` with streaming-done set. -/
theorem executeMultiple_sentinel_on_done (we : Option MErr)
    (resps : List Response) (calls : List Call) (pre : List Call)
    (res : ResultM) (r : Option ResultM) (e : Option MErr)
    (h : ExecuteMultiple we resps = some (calls, ExecRet.ret r e))
    (hl : calls = pre ++ [(some res, none)])
    (hm : res.status &&& SERVER_MORE_RESULTS_EXISTS = 0) :
    e = none ∧ r = some sentinelResult ∧
    sentinelResult.resultset =
      some { fieldCount := 0, streaming := StreamingMultiple, streamingDone := true } ∧
    sentinelResult.status = 0 := by
  cases we with
  | some e0 =>
      simp only [ExecuteMultiple, Option.some.injEq, Prod.mk.injEq] at h
      rw [← h.1] at hl
      exact absurd hl.symm (by simp)
  | none =>
      have hrun : runLoop resps = some (calls, ExecRet.ret r e) := h
      have := runLoop_last_normal resps calls (ExecRet.ret r e) pre res hrun hl hm
      injection this with h1 h2
      exact ⟨h2, h1, rfl, rfl⟩

/-- Claim C8 witness: the single-OK run ends normally and yields the
sentinel. -/
theorem executeMultiple_sentinel_on_done_witness :
    ExecuteMultiple none demoStop =
      some ([(some (demoResult 0), none)], ExecRet.ret (some sentinelResult) none) ∧
    ([(some (demoResult 0), none)] : List Call) = [] ++ [(some (demoResult 0), none)] ∧
    (demoResult 0).status &&& SERVER_MORE_RESULTS_EXISTS = 0 ∧
    ((none : Option MErr) = none ∧ (some sentinelResult : Option ResultM) = some sentinelResult ∧
      sentinelResult.resultset =
        some { fieldCount := 0, streaming := StreamingMultiple, streamingDone := true } ∧
      sentinelResult.status = 0) :=
  ⟨rfl, rfl, rfl,
    executeMultiple_sentinel_on_done none demoStop
      [(some (demoResult 0), none)] [] (demoResult 0)
      (some sentinelResult) none rfl rfl rfl⟩

/-- Claim C10: classification errors (ERR packets, local-infile requests)
are delivered only through the callback, paired with a nil result, and a
run containing such an invocation still returns the sentinel with a nil
error; `ExecuteMultiple` itself returns a non-nil error only for a
command-write failure or a transport-level packet-read failure. -/
theorem executeMultiple_error_channel (we : Option MErr)
    (resps : List Response) (calls : List Call) (r : Option ResultM)
    (e : Option MErr)
    (h : ExecuteMultiple we resps = some (calls, ExecRet.ret r e)) :
    ((∃ c ∈ calls, c.2.isSome = true) → r = some sentinelResult ∧ e = none) ∧
    (∀ err, e = some err →
      (we = some err ∧ calls = []) ∨
        resps.get? calls.length = some (Response.readFail err)) ∧
    (∀ i hd cb se, resps.get? i = some (Response.pkt hd cb se) →
      i < calls.length →
      (hd = ERR_HEADER → calls.get? i = some (none, some se)) ∧
      (hd = LocalInFile_HEADER →
        calls.get? i = some (none, some MErr.malformPacket))) := by
  cases we with
  | some e0 =>
      simp only [ExecuteMultiple, Option.some.injEq, Prod.mk.injEq] at h
      obtain ⟨hcalls, hout⟩ := h
      injection hout with hr he
      refine ⟨?_, ?_, ?_⟩
      · intro hex
        obtain ⟨c, hc, -⟩ := hex
        rw [← hcalls] at hc
        simp at hc
      · intro err herr
        left
        rw [← he] at herr
        injection herr with herr'
        exact ⟨by rw [herr'], hcalls.symm⟩
      · intro i hd cb se hget hi
        rw [← hcalls] at hi
        simp at hi
  | none =>
      have hrun : runLoop resps = some (calls, ExecRet.ret r e) := h
      refine ⟨?_, ?_, ?_⟩
      · intro hex
        obtain ⟨c, hc, hsome⟩ := hex
        cases e with
        | none =>
            exact ⟨(runLoop_ret_nil_err resps calls _ r hrun rfl).1, rfl⟩
        | some e' =>
            have hall := (runLoop_err_ret resps calls _ r e' hrun rfl).2.2
            have := hall c hc
            rw [continuesB] at this
            rw [Option.isSome_iff_exists] at hsome
            obtain ⟨v, hv⟩ := hsome
            rw [hv] at this
            simp at this
      · intro err herr
        right
        subst herr
        exact (runLoop_err_ret resps calls _ r err hrun rfl).2.1
      · intro i hd cb se hget hi
        obtain ⟨hd', cb', se', hget', hcall⟩ :=
          runLoop_get_calls resps calls _ hrun i hi
        rw [hget] at hget'
        injection hget' with hg
        injection hg with g1 g2 g3
        subst g1; subst g2; subst g3
        constructor
        · intro hhd
          subst hhd
          rw [hcall]
          simp [classifyPacket, ERR_HEADER, OK_HEADER]
        · intro hhd
          subst hhd
          rw [hcall]
          simp [classifyPacket, LocalInFile_HEADER, OK_HEADER, ERR_HEADER]

/-- Claim C10 witness: a lone ERR packet run — the error reaches the
callback with a nil result and the run still returns the sentinel with a
nil error. -/
theorem executeMultiple_error_channel_witness :
    ExecuteMultiple none demoErrOnly =
      some ([(none, some (MErr.server 1064))], ExecRet.ret (some sentinelResult) none) ∧
    ((some sentinelResult : Option ResultM) = some sentinelResult ∧
      (none : Option MErr) = none) ∧
    ([(none, some (MErr.server 1064))] : List Call).get? 0 =
      some (none, some (MErr.server 1064)) := by
  have h := executeMultiple_error_channel none demoErrOnly
    [(none, some (MErr.server 1064))] (some sentinelResult) none rfl
  refine ⟨rfl, h.1 ⟨(none, some (MErr.server 1064)), by decide, rfl⟩, ?_⟩
  exact (h.2.2 0 ERR_HEADER (none, none) (MErr.server 1064) rfl (by decide)).1 rfl

/-- Claim C9 witness: a socket path selects "unix", a host:port selects
"tcp", and an explicit network is kept. -/
theorem connectNetwork_spec_witness :
    (("" : String) = "" ∧
      ((connectNetwork "" "/var/run/mysqld/mysqld.sock" = "unix" ↔
          ("/var/run/mysqld/mysqld.sock" : String).contains '/' = true) ∧
        (connectNetwork "" "/var/run/mysqld/mysqld.sock" = "tcp" ↔
          ("/var/run/mysqld/mysqld.sock" : String).contains '/' = false))) ∧
    (("" : String) = "" ∧
      ((connectNetwork "" "127.0.0.1:3306" = "unix" ↔
          ("127.0.0.1:3306" : String).contains '/' = true) ∧
        (connectNetwork "" "127.0.0.1:3306" = "tcp" ↔
          ("127.0.0.1:3306" : String).contains '/' = false))) ∧
    (("tcp6" : String) ≠ "" ∧ connectNetwork "tcp6" "host:3306" = "tcp6") :=
  ⟨⟨rfl, (connectNetwork_spec "" "/var/run/mysqld/mysqld.sock").1 rfl⟩,
    ⟨rfl, (connectNetwork_spec "" "127.0.0.1:3306").1 rfl⟩,
    ⟨by decide, (connectNetwork_spec "tcp6" "host:3306").2 (by decide)⟩⟩

/-- Unfolding one parsed name from the OR-fold. -/
theorem parseFlags_cons (name : Nat → String) (width : Nat) (s : String)
    (l : List String) :
    parseFlags name width (s :: l) =
      parseFlag name width s ||| parseFlags name width l :=
  rfl

/-- Bits strictly below `i` are clear in a mask divisible by `2 ^ i`. -/
theorem testBit_false_of_mod_eq_zero {mask i j : Nat} (h : mask % 2 ^ i = 0)
    (hj : j < i) : mask.testBit j = false := by
  have hm := Nat.testBit_mod_two_pow mask i j
  rw [h, Nat.zero_testBit] at hm
  simpa [hj] using hm.symm

/-- Clearing extends divisibility by one more bit when bit `i` is clear. -/
theorem mod_two_pow_succ_eq_zero {mask i : Nat} (h : mask % 2 ^ i = 0)
    (hb : mask.testBit i = false) : mask % 2 ^ (i + 1) = 0 := by
  apply Nat.eq_of_testBit_eq
  intro j
  rw [Nat.testBit_mod_two_pow, Nat.zero_testBit]
  by_cases hj : j < i + 1
  · have hbj : mask.testBit j = false := by
      rcases Nat.lt_or_ge j i with h1 | h2
      · exact testBit_false_of_mod_eq_zero h h1
      · have : j = i := by omega
        subst this
        exact hb
    simp [hbj]
  · simp [hj]

/-- The bit-level reading of the Go test `mask & field == 0` for a
power-of-two field. -/
theorem and_two_pow_eq_zero_iff {mask i : Nat} :
    mask &&& 2 ^ i = 0 ↔ mask.testBit i = false := by
  rw [Nat.and_two_pow]
  cases h : mask.testBit i with
  | false => simp
  | true => simp [Nat.pos_iff_ne_zero.mp (Nat.two_pow_pos i)]

/-- Clearing the set bit `i` of a mask divisible by `2 ^ i` gives a mask
divisible by `2 ^ (i + 1)`. -/
theorem xor_mod_two_pow_succ {mask i : Nat} (h : mask % 2 ^ i = 0)
    (hb : mask.testBit i = true) : (mask ^^^ 2 ^ i) % 2 ^ (i + 1) = 0 := by
  apply mod_two_pow_succ_eq_zero
  · apply Nat.eq_of_testBit_eq
    intro j
    rw [Nat.testBit_mod_two_pow, Nat.zero_testBit]
    by_cases hj : j < i
    · rw [Nat.testBit_xor, testBit_false_of_mod_eq_zero h hj,
        Nat.testBit_two_pow_of_ne (by omega)]
      simp
    · simp [hj]
  · rw [Nat.testBit_xor, hb, Nat.testBit_two_pow_self]
    rfl

/-- Restoring a cleared bit by OR recovers the original mask. -/
theorem or_xor_two_pow {mask i : Nat} (hb : mask.testBit i = true) :
    2 ^ i ||| (mask ^^^ 2 ^ i) = mask := by
  apply Nat.eq_of_testBit_eq
  intro j
  rw [Nat.testBit_or, Nat.testBit_xor, Nat.testBit_two_pow]
  by_cases hj : i = j
  · subst hj
    simp [hb]
  · simp [hj]

/-- The Go bit-scan loop renders exactly the set bits of the mask, in
ascending bit order, each through the name table: the loop is
deterministic and its insertion order is the bit-scan order. -/
theorem renderFlagsAux_eq_canonical (name : Nat → String) (width : Nat) :
    ∀ (fuel i mask : Nat), i + fuel ≤ width → mask < 2 ^ (i + fuel) →
      mask % 2 ^ i = 0 →
      renderFlagsAux name width fuel i mask =
        ((List.range' i fuel).filter fun j => mask.testBit j).map
          fun j => name (2 ^ j) := by
  intro fuel
  induction fuel with
  | zero =>
      intro i mask _ _ _
      simp [renderFlagsAux]
  | succ fuel ih =>
      intro i mask hw hlt hmod
      rw [renderFlagsAux]
      by_cases h0 : mask = 0
      · subst h0
        simp [Nat.zero_testBit]
      · rw [if_neg h0]
        have hiw : i < width := by omega
        have hfield : 2 ^ i % 2 ^ width = 2 ^ i :=
          Nat.mod_eq_of_lt (Nat.pow_lt_pow_right (by omega) hiw)
        rw [hfield, List.range'_succ]
        by_cases hb : mask.testBit i
        · have hand : ¬mask &&& 2 ^ i = 0 := by
            rw [and_two_pow_eq_zero_iff, hb]
            simp
          rw [if_neg hand]
          have hlt' : mask ^^^ 2 ^ i < 2 ^ (i + 1 + fuel) := by
            have he : i + 1 + fuel = i + (fuel + 1) := by omega
            rw [he]
            refine Nat.xor_lt_two_pow hlt ?_
            exact Nat.pow_lt_pow_right (by omega) (by omega)
          rw [ih (i + 1) (mask ^^^ 2 ^ i) (by omega) hlt'
            (xor_mod_two_pow_succ hmod hb)]
          have hcongr :
              ((List.range' (i + 1) fuel).filter fun j =>
                  (mask ^^^ 2 ^ i).testBit j) =
              ((List.range' (i + 1) fuel).filter fun j => mask.testBit j) := by
            apply List.filter_congr
            intro j hjmem
            obtain ⟨k, -, hk⟩ := List.mem_range'.mp hjmem
            rw [Nat.testBit_xor, Nat.testBit_two_pow_of_ne (by omega)]
            simp
          rw [hcongr]
          simp [hb]
        · have hand : mask &&& 2 ^ i = 0 := by
            rw [and_two_pow_eq_zero_iff]
            simpa using hb
          rw [if_pos hand]
          have hlt' : mask < 2 ^ (i + 1 + fuel) := by
            have he : i + 1 + fuel = i + (fuel + 1) := by omega
            rw [he]
            exact hlt
          rw [ih (i + 1) mask (by omega) hlt'
            (mod_two_pow_succ_eq_zero hmod (by simpa using hb))]
          simp [hb]

/-- Re-parsing the canonical rendering of a mask recovers the mask, given
that the per-bit parse inverts the name table. -/
theorem parseFlags_canonical (name : Nat → String) (width : Nat)
    (hinv : ∀ j, j < width → parseFlag name width (name (2 ^ j)) = 2 ^ j) :
    ∀ (fuel i mask : Nat), i + fuel ≤ width → mask < 2 ^ (i + fuel) →
      mask % 2 ^ i = 0 →
      parseFlags name width
        (((List.range' i fuel).filter fun j => mask.testBit j).map
          fun j => name (2 ^ j)) = mask := by
  intro fuel
  induction fuel with
  | zero =>
      intro i mask _ hlt hmod
      have h0 : mask = 0 :=
        Nat.eq_zero_of_dvd_of_lt (Nat.dvd_of_mod_eq_zero hmod)
          (by simpa using hlt)
      subst h0
      simp [parseFlags]
  | succ fuel ih =>
      intro i mask hw hlt hmod
      rw [List.range'_succ]
      by_cases hb : mask.testBit i
      · have hcongr :
            ((List.range' (i + 1) fuel).filter fun j => mask.testBit j) =
            ((List.range' (i + 1) fuel).filter fun j =>
                (mask ^^^ 2 ^ i).testBit j) := by
          apply List.filter_congr
          intro j hjmem
          obtain ⟨k, -, hk⟩ := List.mem_range'.mp hjmem
          rw [Nat.testBit_xor, Nat.testBit_two_pow_of_ne (by omega)]
          simp
        have hlt' : mask ^^^ 2 ^ i < 2 ^ (i + 1 + fuel) := by
          have he : i + 1 + fuel = i + (fuel + 1) := by omega
          rw [he]
          refine Nat.xor_lt_two_pow hlt ?_
          exact Nat.pow_lt_pow_right (by omega) (by omega)
        have hrec := ih (i + 1) (mask ^^^ 2 ^ i) (by omega) hlt'
          (xor_mod_two_pow_succ hmod hb)
        rw [← hcongr] at hrec
        simp only [List.filter_cons, hb, if_true, List.map_cons,
          parseFlags_cons]
        rw [hrec, hinv i (by omega)]
        exact or_xor_two_pow hb
      · have hrec := ih (i + 1) mask (by omega)
          (by rw [show i + 1 + fuel = i + (fuel + 1) by omega]; exact hlt)
          (mod_two_pow_succ_eq_zero hmod (by simpa using hb))
        simpa [hb] using hrec

/-- Every capability bit position parses back to itself through the
capability name table (checked exhaustively for the 32 bits). -/
theorem capabilityName_parse_inverse :
    ∀ j, j < 32 → parseFlag capabilityName 32 (capabilityName (2 ^ j)) = 2 ^ j := by
  decide

/-- Every status bit position parses back to itself through the status name
table, including the four positions rendered in the parenthesized numeric
form (checked exhaustively for the 16 bits). -/
theorem statusName_parse_inverse :
    ∀ j, j < 16 → parseFlag statusName 16 (statusName (2 ^ j)) = 2 ^ j := by
  decide

/-- Claim C6: `CapabilityString` and `StatusString` render the name list
deterministically in ascending bit order (the canonical form), and
re-parsing the rendered names — including parenthesized numeric forms for
unknown bits — against the same bit table recovers exactly the original
bitmask. -/
theorem capability_status_roundtrip (c : Conn)
    (hc : c.capability < 2 ^ 32) (hs : c.status < 2 ^ 16) :
    CapabilityString c = canonicalFlags capabilityName 32 c.capability ∧
    parseFlags capabilityName 32 (CapabilityString c) = c.capability ∧
    StatusString c = canonicalFlags statusName 16 c.status ∧
    parseFlags statusName 16 (StatusString c) = c.status := by
  have hcap : CapabilityString c = canonicalFlags capabilityName 32 c.capability := by
    rw [CapabilityString, canonicalFlags, List.range_eq_range']
    exact renderFlagsAux_eq_canonical capabilityName 32 32 0 c.capability
      (by omega) (by simpa using hc) (by omega)
  have hst : StatusString c = canonicalFlags statusName 16 c.status := by
    rw [StatusString, canonicalFlags, List.range_eq_range']
    exact renderFlagsAux_eq_canonical statusName 16 16 0 c.status
      (by omega) (by simpa using hs) (by omega)
  refine ⟨hcap, ?_, hst, ?_⟩
  · rw [hcap, canonicalFlags, List.range_eq_range']
    exact parseFlags_canonical capabilityName 32 capabilityName_parse_inverse
      32 0 c.capability (by omega) (by simpa using hc) (by omega)
  · rw [hst, canonicalFlags, List.range_eq_range']
    exact parseFlags_canonical statusName 16 statusName_parse_inverse
      16 0 c.status (by omega) (by simpa using hs) (by omega)

/-- Claim C6 witness: the round trip on a session with capability bits 0
and 9 set and status bits 0, 2, 3 set — bit 2 has no name in the status
table and exercises the parenthesized numeric form. -/
theorem capability_status_roundtrip_witness :
    flagsConn.capability < 2 ^ 32 ∧ flagsConn.status < 2 ^ 16 ∧
    (CapabilityString flagsConn =
        canonicalFlags capabilityName 32 flagsConn.capability ∧
      parseFlags capabilityName 32 (CapabilityString flagsConn) =
        flagsConn.capability ∧
      StatusString flagsConn = canonicalFlags statusName 16 flagsConn.status ∧
      parseFlags statusName 16 (StatusString flagsConn) = flagsConn.status) :=
  ⟨by decide, by decide,
    capability_status_roundtrip flagsConn (by decide) (by decide)⟩

end Client
